import Mathlib

/-!
Verification of the PIKUDO backend routes: the two-phase challenge media
upload protocol (reserve and commit handlers) and the room `end` lifecycle
transition.  Each handler is embedded as a pure function over an explicit
database snapshot, an environment of external services (clock, storage URL
resolution), and a request record; the handler returns the HTTP-style
response, the updated database, and the ordered trace of store/storage
operations it performed.
-/

namespace Pikudo

/-- A row of the `player_sessions` table: opaque token to player identity. -/
structure SessionRow where
  session_token : String
  player_id : String
deriving DecidableEq, Repr

/-- A row of the `player_challenges` table, with its media fields. -/
structure PlayerChallengeRow where
  id : String
  player_id : String
  block_start : String
  media_url : Option String
  media_type : Option String
  media_mime : Option String
  media_uploaded_at : Option String
deriving DecidableEq, Repr

/-- A row of the `players` table (identity and owning room). -/
structure PlayerRow where
  id : String
  room_id : String
deriving DecidableEq, Repr

/-- A row of the `rooms` table (only the fields the `end` route touches). -/
structure RoomRow where
  id : String
  code : String
  status : String
  ends_at : Option String
deriving DecidableEq, Repr

/-- A row of the `room_members` table: membership role of a player in a room. -/
structure MemberRow where
  room_id : String
  player_id : String
  role : String
deriving DecidableEq, Repr

/-- The database snapshot a request executes against. -/
structure DB where
  sessions : List SessionRow
  challenges : List PlayerChallengeRow
  players : List PlayerRow
  rooms : List RoomRow
  members : List MemberRow
deriving DecidableEq, Repr

/-- One store/storage operation performed by a handler, in order. -/
inductive Effect where
  | sessionLookup (token : String)
  | challengeLookup (id : String)
  | playerLookup (id : String)
  | roomLookup (code : String)
  | memberLookup (roomId : String) (playerId : String)
  | storageSignedUpload (path : String) (upsert : Bool)
  | storagePublicUrl (path : String)
  | updateChallenge (id url mtype mmime uploadedAt : String)
  | updateRoom (id status endsAt : String)
deriving DecidableEq, Repr

/-- External services: wall clock (`new Date().toISOString()`), timestamp
normalisation (`new Date(x).toISOString()`), and the storage backend's
public-URL resolution and signed-upload credential minting. -/
structure Env where
  nowIso : String
  toIso : String → String
  publicUrl : String → String
  signedToken : String → String
  signedUrlOf : String → String

/-- HTTP-style response: success flag, error code, status. -/
structure Response where
  ok : Bool
  error : Option String
  status : Nat
deriving DecidableEq, Repr

/-- A failure response, as built by `NextResponse.json({ ok:false, error }, { status })`. -/
def errResp (status : Nat) (e : String) : Response :=
  { ok := false, error := some e, status := status }

/-- A success response (`ok: true`, HTTP 200). -/
def okResp : Response := { ok := true, error := none, status := 200 }

/-- `maybeSingle` lookup on `player_sessions` filtered by `session_token`. -/
def findSession (db : DB) (tok : String) : Option SessionRow :=
  db.sessions.find? (fun r => r.session_token == tok)

/-- `maybeSingle` lookup on `player_challenges` filtered by `id`. -/
def findChallenge (db : DB) (i : String) : Option PlayerChallengeRow :=
  db.challenges.find? (fun r => r.id == i)

/-- `maybeSingle` lookup on `players` filtered by `id`. -/
def findPlayer (db : DB) (i : String) : Option PlayerRow :=
  db.players.find? (fun r => r.id == i)

/-- `maybeSingle` lookup on `rooms` filtered by `code`. -/
def findRoomByCode (db : DB) (c : String) : Option RoomRow :=
  db.rooms.find? (fun r => r.code == c)

/-- `maybeSingle` lookup on `room_members` filtered by `room_id` and `player_id`. -/
def findMember (db : DB) (roomId playerId : String) : Option MemberRow :=
  db.members.find? (fun r => r.room_id == roomId && r.player_id == playerId)

/-- JS `String.prototype.startsWith`, as a prefix test on the character
lists (Lean's own `String.startsWith` is equivalent but does not reduce in
the kernel). -/
def jsStartsWith (s pre : String) : Bool :=
  pre.toList.isPrefixOf s.toList

/-- JS `String.prototype.trim`: strip whitespace from both ends. -/
def jsTrim (s : String) : String :=
  String.mk (((s.toList.dropWhile Char.isWhitespace).reverse.dropWhile Char.isWhitespace).reverse)

/-- Split a character list at every occurrence of `c`; `acc` holds the
current segment reversed.  This is JS `split(sep)` for a one-character
separator. -/
def splitAtChar (c : Char) : List Char → List Char → List (List Char)
  | [], acc => [acc.reverse]
  | x :: xs, acc =>
    if x = c then acc.reverse :: splitAtChar c xs []
    else splitAtChar c xs (x :: acc)

/-- JS `s.split(sep)` for a one-character separator string. -/
def jsSplit (s : String) (c : Char) : List String :=
  (splitAtChar c s.toList []).map String.mk

/-- `mediaTypeFromMime` from the commit route: `video/*` is video, anything
else is image. -/
def mediaTypeFromMime (mime : String) : String :=
  if jsStartsWith mime "video/" then "video" else "image"

/-- The part after the first slash of a mime string (`mime.split("/")[1]`,
with JS `undefined` and `""` both collapsing to the empty string). -/
def mimeSubtype (mime : String) : String :=
  ((jsSplit mime '/').get? 1).getD ""

/-- `extFromMime` from the reserve route: the mime subtype as an extension,
with per-family defaults when the subtype is empty. -/
def extFromMime (mime : String) : String :=
  if jsStartsWith mime "image/" then
    (if mimeSubtype mime ≠ "" then "." ++ mimeSubtype mime else ".jpg")
  else if jsStartsWith mime "video/" then
    (if mimeSubtype mime ≠ "" then "." ++ mimeSubtype mime else ".mp4")
  else ""

/-- The mime-family guard shared by both upload routes:
`!mime || (!mime.startsWith("image/") && !mime.startsWith("video/"))`. -/
def badMime (mime : String) : Bool :=
  mime == "" || (!jsStartsWith mime "image/" && !jsStartsWith mime "video/")

/-- A hexadecimal digit, for the modelled UUID validator. -/
def isHexChar (c : Char) : Bool :=
  c.isDigit || (Char.ofNat 97 ≤ c && c ≤ Char.ofNat 102) || (Char.ofNat 65 ≤ c && c ≤ Char.ofNat 70)

/-- Modelled from the spec: `validateUuid` lives in `@/lib/validators`, which
is not among the provided sources.  The spec says malformed ids are rejected
as malformed input ("bad id format" in the error taxonomy); the call sites
pass an untyped body field and afterwards use `playerChallengeId.trim()`, so
the validator is modelled as: the field is a string whose trimmed form has
the canonical 8-4-4-4-12 hexadecimal UUID shape. -/
def validateUuid : Option String → Bool
  | none => false
  | some s =>
    let gs := jsSplit (jsTrim s) '-'
    gs.length = 5 &&
      (List.zip gs [8, 4, 4, 4, 12]).all
        (fun p => p.1.toList.length = p.2 && p.1.toList.all isHexChar)

/-- Modelled from the spec: `validateRoomCode` lives in `@/lib/validators`,
which is not among the provided sources.  The spec describes a room code as a
short human-entered identifier and says malformed codes are rejected; the
validator is modelled as: the field is a nonempty alphanumeric string of at
most twelve characters. -/
def validateRoomCode : Option String → Bool
  | none => false
  | some s => !s.toList.isEmpty && s.toList.length ≤ 12 && s.toList.all Char.isAlphanum

/-- The commit request body, plus the session token resolved from the
request's header/cookie (`readSessionTokenFromRequest`; `none` when absent).
Body fields of non-string JSON type are modelled as `none`. -/
structure CommitReq where
  sessionToken : Option String
  playerChallengeId : Option String
  path : Option String
  mime : Option String
deriving DecidableEq, Repr

/-- The `media` payload of a successful commit response. -/
structure MediaOut where
  url : String
  mime : String
  type : String
deriving DecidableEq, Repr

/-- Outcome of the commit handler: response, payload, new database, trace. -/
structure CommitOut where
  resp : Response
  media : Option MediaOut
  db : DB
  trace : List Effect
deriving DecidableEq, Repr

/-- Overwrite the media fields of the challenge row with the given id, as the
commit route's `update(...).eq("id", pc.id)` does. -/
def overwriteMedia (cs : List PlayerChallengeRow) (i url mtype mmime uploadedAt : String) :
    List PlayerChallengeRow :=
  cs.map (fun r =>
    if r.id == i then
      { r with media_url := some url, media_type := some mtype,
               media_mime := some mmime, media_uploaded_at := some uploadedAt }
    else r)

/-- The upload-commit handler (`POST` of the commit route), embedded as a
pure function.  Faithful to the source: session token presence, body
validation (uuid, path, mime) in that order, session lookup, challenge
lookup with the merged `!pc || pc.player_id !== session.player_id` ownership
check, the `path.startsWith(player_id + "/")` sandbox check, public URL
resolution and the media-field update.  Store transport failures are not
modelled (the store is treated as available). -/
def commitPOST (req : CommitReq) (db : DB) (env : Env) : CommitOut :=
  match req.sessionToken with
  | none => { resp := errResp 401 "UNAUTHORIZED", media := none, db := db, trace := [] }
  | some tok =>
    let path := req.path.getD ""
    let mime := req.mime.getD ""
    if !validateUuid req.playerChallengeId then
      { resp := errResp 400 "INVALID_PLAYER_CHALLENGE_ID", media := none, db := db, trace := [] }
    else if path == "" then
      { resp := errResp 400 "INVALID_PATH", media := none, db := db, trace := [] }
    else if badMime mime then
      { resp := errResp 400 "INVALID_MIME", media := none, db := db, trace := [] }
    else
      let tr1 := [Effect.sessionLookup tok]
      match findSession db tok with
      | none => { resp := errResp 401 "UNAUTHORIZED", media := none, db := db, trace := tr1 }
      | some session =>
        let pcid := jsTrim (req.playerChallengeId.getD "")
        let tr2 := tr1 ++ [Effect.challengeLookup pcid]
        match findChallenge db pcid with
        | none => { resp := errResp 403 "NOT_ALLOWED", media := none, db := db, trace := tr2 }
        | some pc =>
          if pc.player_id ≠ session.player_id then
            { resp := errResp 403 "NOT_ALLOWED", media := none, db := db, trace := tr2 }
          else if !jsStartsWith path (session.player_id ++ "/") then
            { resp := errResp 403 "NOT_ALLOWED", media := none, db := db, trace := tr2 }
          else
            let publicUrl := env.publicUrl path
            let mediaType := mediaTypeFromMime mime
            let tr3 := tr2 ++ [Effect.storagePublicUrl path,
                               Effect.updateChallenge pc.id publicUrl mediaType mime env.nowIso]
            { resp := okResp,
              media := some { url := publicUrl, mime := mime, type := mediaType },
              db := { db with
                challenges := overwriteMedia db.challenges pc.id publicUrl mediaType mime env.nowIso },
              trace := tr3 }

/-- The reserve request body, plus the resolved session token. -/
structure ReserveReq where
  sessionToken : Option String
  playerChallengeId : Option String
  mime : Option String
deriving DecidableEq, Repr

/-- The `upload` payload of a successful reserve response: the storage path
and the signed upload credential, as echoed back by the storage backend. -/
structure UploadOut where
  path : String
  token : String
  signedUrl : String
deriving DecidableEq, Repr

/-- The server-derived storage path of the reserve route:
`{player_id}/{block_start as ISO-8601}/{player_challenge_id}{extFromMime mime}`. -/
def reservePath (env : Env) (session : SessionRow) (pc : PlayerChallengeRow) (mime : String) :
    String :=
  session.player_id ++ "/" ++ env.toIso pc.block_start ++ "/" ++ pc.id ++ extFromMime mime

/-- Outcome of the reserve handler: response, payload, new database, trace. -/
structure ReserveOut where
  resp : Response
  upload : Option UploadOut
  db : DB
  trace : List Effect
deriving DecidableEq, Repr

/-- The upload-reserve handler (`POST` of the reserve route), embedded as a
pure function.  Faithful to the source: session token presence, body
validation (uuid, mime), session lookup, challenge lookup with the merged
ownership check, then the server-derived storage path
`{player_id}/{block_start ISO}/{id}{extFromMime mime}` and the signed upload
credential request with `upsert: true`.  Store transport failures are not
modelled. -/
def reservePOST (req : ReserveReq) (db : DB) (env : Env) : ReserveOut :=
  match req.sessionToken with
  | none => { resp := errResp 401 "UNAUTHORIZED", upload := none, db := db, trace := [] }
  | some tok =>
    let mime := req.mime.getD ""
    if !validateUuid req.playerChallengeId then
      { resp := errResp 400 "INVALID_PLAYER_CHALLENGE_ID", upload := none, db := db, trace := [] }
    else if badMime mime then
      { resp := errResp 400 "INVALID_MIME", upload := none, db := db, trace := [] }
    else
      let tr1 := [Effect.sessionLookup tok]
      match findSession db tok with
      | none => { resp := errResp 401 "UNAUTHORIZED", upload := none, db := db, trace := tr1 }
      | some session =>
        let pcid := jsTrim (req.playerChallengeId.getD "")
        let tr2 := tr1 ++ [Effect.challengeLookup pcid]
        match findChallenge db pcid with
        | none => { resp := errResp 403 "NOT_ALLOWED", upload := none, db := db, trace := tr2 }
        | some pc =>
          if pc.player_id ≠ session.player_id then
            { resp := errResp 403 "NOT_ALLOWED", upload := none, db := db, trace := tr2 }
          else
            let path := reservePath env session pc mime
            let tr3 := tr2 ++ [Effect.storageSignedUpload path true]
            { resp := okResp,
              upload := some { path := path, token := env.signedToken path,
                               signedUrl := env.signedUrlOf path },
              db := db, trace := tr3 }

/-- The end request body, plus the resolved session token. -/
structure EndReq where
  sessionToken : Option String
  code : Option String
deriving DecidableEq, Repr

/-- Outcome of the end handler: response, `endedAt` payload, new database,
trace. -/
structure EndOut where
  resp : Response
  endedAt : Option String
  db : DB
  trace : List Effect
deriving DecidableEq, Repr

/-- Set `status = "ended"` and `ends_at` on the room with the given id, as
the end route's `update({status:"ended", ends_at}).eq("id", room.id)` does. -/
def endRoom (rs : List RoomRow) (i nowIso : String) : List RoomRow :=
  rs.map (fun r => if r.id == i then { r with status := "ended", ends_at := some nowIso } else r)

/-- The room `end` handler (`POST` of the end route), embedded as a pure
function.  Faithful to the source: session token presence, room-code
validation, session lookup, player lookup, room lookup by code (absent room
is `ROOM_NOT_FOUND`), the `room.id !== player.room_id` membership-scope
check, the owner-role membership lookup (`(member?.role ?? "") !== "owner"`),
then the unconditional `status = ended, ends_at = now` update.  Store
transport failures are not modelled. -/
def endPOST (req : EndReq) (db : DB) (env : Env) : EndOut :=
  match req.sessionToken with
  | none => { resp := errResp 401 "UNAUTHORIZED", endedAt := none, db := db, trace := [] }
  | some tok =>
    if !validateRoomCode req.code then
      { resp := errResp 400 "INVALID_ROOM_CODE", endedAt := none, db := db, trace := [] }
    else
      let tr1 := [Effect.sessionLookup tok]
      match findSession db tok with
      | none => { resp := errResp 401 "UNAUTHORIZED", endedAt := none, db := db, trace := tr1 }
      | some session =>
        let tr2 := tr1 ++ [Effect.playerLookup session.player_id]
        match findPlayer db session.player_id with
        | none => { resp := errResp 401 "UNAUTHORIZED", endedAt := none, db := db, trace := tr2 }
        | some player =>
          let code := req.code.getD ""
          let tr3 := tr2 ++ [Effect.roomLookup code]
          match findRoomByCode db code with
          | none => { resp := errResp 404 "ROOM_NOT_FOUND", endedAt := none, db := db, trace := tr3 }
          | some room =>
            if room.id ≠ player.room_id then
              { resp := errResp 403 "NOT_ALLOWED", endedAt := none, db := db, trace := tr3 }
            else
              let tr4 := tr3 ++ [Effect.memberLookup room.id player.id]
              let memberRole := ((findMember db room.id player.id).map (fun m => m.role)).getD ""
              if memberRole ≠ "owner" then
                { resp := errResp 403 "NOT_ALLOWED", endedAt := none, db := db, trace := tr4 }
              else
                let nowIso := env.nowIso
                { resp := okResp, endedAt := some nowIso,
                  db := { db with rooms := endRoom db.rooms room.id nowIso },
                  trace := tr4 ++ [Effect.updateRoom room.id "ended" nowIso] }

/-! ### Concrete fixtures used by witnesses and counterexamples -/

/-- A well-formed challenge id. -/
def uuidA : String := "11111111-1111-1111-1111-111111111111"

/-- A second well-formed challenge id, present in no fixture database. -/
def uuidB : String := "22222222-2222-2222-2222-222222222222"

/-- A concrete environment for witnesses. -/
def envT : Env :=
  { nowIso := "2024-06-01T10:00:00.000Z",
    toIso := fun s => s,
    publicUrl := fun p => "https://cdn.example/" ++ p,
    signedToken := fun p => "tok-" ++ p,
    signedUrlOf := fun p => "https://up.example/" ++ p }

/-- A challenge row owned by player `p1`, with no media yet. -/
def pcA : PlayerChallengeRow :=
  { id := uuidA, player_id := "p1", block_start := "2024-06-01T09:00:00.000Z",
    media_url := none, media_type := none, media_mime := none, media_uploaded_at := none }

/-- A fixture database: two players in two rooms, `p1` owning room `r1`
(which is in the `lobby` state) and challenge `uuidA`, `p2` a member of
room `r2`. -/
def dbA : DB :=
  { sessions := [{ session_token := "s1", player_id := "p1" },
                 { session_token := "s2", player_id := "p2" }],
    challenges := [pcA],
    players := [{ id := "p1", room_id := "r1" }, { id := "p2", room_id := "r2" }],
    rooms := [{ id := "r1", code := "ROOM1", status := "lobby", ends_at := none },
              { id := "r2", code := "ROOM2", status := "active", ends_at := some "2024-06-01T12:00:00.000Z" }],
    members := [{ room_id := "r1", player_id := "p1", role := "owner" },
                { room_id := "r2", player_id := "p2", role := "member" }] }

/-! ### Shared helper lemmas -/

/-- In the commit route, a challenge id that resolves to no row yields
`NOT_ALLOWED` and leaves the database unchanged. -/
theorem commit_challenge_absent
    (req : CommitReq) (db : DB) (env : Env) (tok : String) (session : SessionRow)
    (htok : req.sessionToken = some tok)
    (huuid : validateUuid req.playerChallengeId = true)
    (hpath : (req.path.getD "" == "") = false)
    (hmime : badMime (req.mime.getD "") = false)
    (hsess : findSession db tok = some session)
    (hpc : findChallenge db (jsTrim (req.playerChallengeId.getD "")) = none) :
    (commitPOST req db env).resp = errResp 403 "NOT_ALLOWED" ∧
      (commitPOST req db env).db = db := by
  simp only [commitPOST, htok, huuid, hpath, hmime, hsess, hpc, Bool.not_true, Bool.not_false]
  simp

/-- In the commit route, a challenge row owned by a different player yields
`NOT_ALLOWED` and leaves the database unchanged. -/
theorem commit_challenge_unowned
    (req : CommitReq) (db : DB) (env : Env)
    (tok : String) (session : SessionRow) (pc : PlayerChallengeRow)
    (htok : req.sessionToken = some tok)
    (huuid : validateUuid req.playerChallengeId = true)
    (hpath : (req.path.getD "" == "") = false)
    (hmime : badMime (req.mime.getD "") = false)
    (hsess : findSession db tok = some session)
    (hpc : findChallenge db (jsTrim (req.playerChallengeId.getD "")) = some pc)
    (hown : pc.player_id ≠ session.player_id) :
    (commitPOST req db env).resp = errResp 403 "NOT_ALLOWED" ∧
      (commitPOST req db env).db = db := by
  simp only [commitPOST, htok, huuid, hpath, hmime, hsess, hpc, Bool.not_true, Bool.not_false]
  simp [hown]

/-- In the end route, a room code that resolves to no room yields
`ROOM_NOT_FOUND` with HTTP status 404. -/
theorem end_room_absent
    (req : EndReq) (db : DB) (env : Env) (tok : String) (session : SessionRow) (player : PlayerRow)
    (htok : req.sessionToken = some tok)
    (hcode : validateRoomCode req.code = true)
    (hsess : findSession db tok = some session)
    (hplayer : findPlayer db session.player_id = some player)
    (hroom : findRoomByCode db (req.code.getD "") = none) :
    (endPOST req db env).resp = errResp 404 "ROOM_NOT_FOUND" ∧
      (endPOST req db env).db = db := by
  simp only [endPOST, htok, hcode, hsess, hplayer, hroom, Bool.not_true, Bool.not_false]
  simp

/-- In the end route, a room that exists but is not the caller's own room
yields `NOT_ALLOWED` with HTTP status 403. -/
theorem end_room_foreign
    (req : EndReq) (db : DB) (env : Env)
    (tok : String) (session : SessionRow) (player : PlayerRow) (room : RoomRow)
    (htok : req.sessionToken = some tok)
    (hcode : validateRoomCode req.code = true)
    (hsess : findSession db tok = some session)
    (hplayer : findPlayer db session.player_id = some player)
    (hroom : findRoomByCode db (req.code.getD "") = some room)
    (hforeign : room.id ≠ player.room_id) :
    (endPOST req db env).resp = errResp 403 "NOT_ALLOWED" ∧
      (endPOST req db env).db = db := by
  simp only [endPOST, htok, hcode, hsess, hplayer, hroom, Bool.not_true, Bool.not_false]
  simp [hforeign]

/-! ### C1 -/

/-- C1: an upload-commit by the challenge's owning player whose `path` does
not start with the resolved identity's `{player_id}/` prefix fails with
`NOT_ALLOWED` (HTTP 403) and leaves the database — in particular the
challenge's media fields — unchanged, even though the `player_id` ownership
check on the challenge row itself passed. -/
theorem commit_foreign_path_not_allowed
    (req : CommitReq) (db : DB) (env : Env)
    (tok : String) (session : SessionRow) (pc : PlayerChallengeRow)
    (htok : req.sessionToken = some tok)
    (huuid : validateUuid req.playerChallengeId = true)
    (hpath : (req.path.getD "" == "") = false)
    (hmime : badMime (req.mime.getD "") = false)
    (hsess : findSession db tok = some session)
    (hpc : findChallenge db (jsTrim (req.playerChallengeId.getD "")) = some pc)
    (hown : pc.player_id = session.player_id)
    (hpref : jsStartsWith (req.path.getD "") (session.player_id ++ "/") = false) :
    (commitPOST req db env).resp = errResp 403 "NOT_ALLOWED" ∧
      (commitPOST req db env).db = db := by
  simp only [commitPOST, htok, huuid, hpath, hmime, hsess, hpc, hown, hpref,
    Bool.not_true, Bool.not_false]
  simp

/-- Witness for C1: player `p1` owns challenge `uuidA`, yet committing the
path `p2/evil.png` is rejected with `NOT_ALLOWED` and the database is kept. -/
theorem commit_foreign_path_not_allowed_witness :
    (commitPOST { sessionToken := some "s1", playerChallengeId := some uuidA,
                  path := some "p2/evil.png", mime := some "image/png" } dbA envT).resp
        = errResp 403 "NOT_ALLOWED" ∧
      (commitPOST { sessionToken := some "s1", playerChallengeId := some uuidA,
                    path := some "p2/evil.png", mime := some "image/png" } dbA envT).db
        = dbA :=
  commit_foreign_path_not_allowed _ dbA envT "s1"
    { session_token := "s1", player_id := "p1" } pcA
    rfl (by decide) (by decide) (by decide) (by decide) (by decide) (by decide) (by decide)

/-! ### C2 -/

/-- C2 counterexample: the claimed single collapsed `NOT_FOUND` signal does
not exist.  For the same authenticated caller, the end route answers
`ROOM_NOT_FOUND` (404) when the room does not exist but `NOT_ALLOWED` (403)
when the room exists and belongs to someone else — the two cases are
distinguished — and the commit route answers `NOT_ALLOWED`, not `NOT_FOUND`,
for a nonexistent challenge. -/
theorem notfound_collapse_counterexample :
    (endPOST { sessionToken := some "s1", code := some "NOPE" } dbA envT).resp
        = errResp 404 "ROOM_NOT_FOUND" ∧
      (endPOST { sessionToken := some "s1", code := some "ROOM2" } dbA envT).resp
        = errResp 403 "NOT_ALLOWED" ∧
      errResp 404 "ROOM_NOT_FOUND" ≠ errResp 403 "NOT_ALLOWED" ∧
      (commitPOST { sessionToken := some "s1", playerChallengeId := some uuidB,
                    path := some "p1/x.png", mime := some "image/png" } dbA envT).resp
        = errResp 403 "NOT_ALLOWED" := by
  decide

/-- C2 amended: the upload-commit route collapses "challenge does not exist"
and "challenge owned by another player" into the single `NOT_ALLOWED` (403)
signal; the end route distinguishes a nonexistent room (`ROOM_NOT_FOUND`,
404) from an existing room that does not belong to the caller
(`NOT_ALLOWED`, 403). -/
theorem target_miss_signals_amended :
    (∀ (req : CommitReq) (db : DB) (env : Env) (tok : String) (session : SessionRow),
        req.sessionToken = some tok → validateUuid req.playerChallengeId = true →
        (req.path.getD "" == "") = false → badMime (req.mime.getD "") = false →
        findSession db tok = some session →
        findChallenge db (jsTrim (req.playerChallengeId.getD "")) = none →
        (commitPOST req db env).resp = errResp 403 "NOT_ALLOWED") ∧
    (∀ (req : CommitReq) (db : DB) (env : Env) (tok : String) (session : SessionRow)
        (pc : PlayerChallengeRow),
        req.sessionToken = some tok → validateUuid req.playerChallengeId = true →
        (req.path.getD "" == "") = false → badMime (req.mime.getD "") = false →
        findSession db tok = some session →
        findChallenge db (jsTrim (req.playerChallengeId.getD "")) = some pc →
        pc.player_id ≠ session.player_id →
        (commitPOST req db env).resp = errResp 403 "NOT_ALLOWED") ∧
    (∀ (req : EndReq) (db : DB) (env : Env) (tok : String) (session : SessionRow)
        (player : PlayerRow),
        req.sessionToken = some tok → validateRoomCode req.code = true →
        findSession db tok = some session → findPlayer db session.player_id = some player →
        findRoomByCode db (req.code.getD "") = none →
        (endPOST req db env).resp = errResp 404 "ROOM_NOT_FOUND") ∧
    (∀ (req : EndReq) (db : DB) (env : Env) (tok : String) (session : SessionRow)
        (player : PlayerRow) (room : RoomRow),
        req.sessionToken = some tok → validateRoomCode req.code = true →
        findSession db tok = some session → findPlayer db session.player_id = some player →
        findRoomByCode db (req.code.getD "") = some room → room.id ≠ player.room_id →
        (endPOST req db env).resp = errResp 403 "NOT_ALLOWED") :=
  ⟨fun req db env tok session htok huuid hpath hmime hsess hpc =>
      (commit_challenge_absent req db env tok session htok huuid hpath hmime hsess hpc).1,
   fun req db env tok session pc htok huuid hpath hmime hsess hpc hown =>
      (commit_challenge_unowned req db env tok session pc htok huuid hpath hmime hsess hpc hown).1,
   fun req db env tok session player htok hcode hsess hplayer hroom =>
      (end_room_absent req db env tok session player htok hcode hsess hplayer hroom).1,
   fun req db env tok session player room htok hcode hsess hplayer hroom hforeign =>
      (end_room_foreign req db env tok session player room htok hcode hsess hplayer hroom hforeign).1⟩

/-- Witness for the amended C2, instantiating all four cases on the fixture
database. -/
theorem target_miss_signals_amended_witness :
    (commitPOST { sessionToken := some "s1", playerChallengeId := some uuidB,
                  path := some "p1/x.png", mime := some "image/png" } dbA envT).resp
        = errResp 403 "NOT_ALLOWED" ∧
      (commitPOST { sessionToken := some "s2", playerChallengeId := some uuidA,
                    path := some "p2/x.png", mime := some "image/png" } dbA envT).resp
        = errResp 403 "NOT_ALLOWED" ∧
      (endPOST { sessionToken := some "s1", code := some "NOPE" } dbA envT).resp
        = errResp 404 "ROOM_NOT_FOUND" ∧
      (endPOST { sessionToken := some "s1", code := some "ROOM2" } dbA envT).resp
        = errResp 403 "NOT_ALLOWED" :=
  ⟨target_miss_signals_amended.1 _ dbA envT "s1" { session_token := "s1", player_id := "p1" }
      rfl (by decide) (by decide) (by decide) (by decide) (by decide),
   target_miss_signals_amended.2.1 _ dbA envT "s2" { session_token := "s2", player_id := "p2" }
      pcA rfl (by decide) (by decide) (by decide) (by decide) (by decide) (by decide),
   target_miss_signals_amended.2.2.1 _ dbA envT "s1" { session_token := "s1", player_id := "p1" }
      { id := "p1", room_id := "r1" } rfl (by decide) (by decide) (by decide) (by decide),
   target_miss_signals_amended.2.2.2 _ dbA envT "s1" { session_token := "s1", player_id := "p1" }
      { id := "p1", room_id := "r1" }
      { id := "r2", code := "ROOM2", status := "active", ends_at := some "2024-06-01T12:00:00.000Z" }
      rfl (by decide) (by decide) (by decide) (by decide) (by decide)⟩

/-! ### C3 -/

/-- C3 counterexample: calling end as the owner on a room still in the
`lobby` state is not a no-op.  On the fixture, room `r1` starts as
`lobby` with `ends_at = none`; after the call the response is a success and
the room's status has become `ended` with `ends_at` set to now, so the
status and `endsAt` fields are not left unchanged. -/
theorem end_lobby_mutation_counterexample :
    (endPOST { sessionToken := some "s1", code := some "ROOM1" } dbA envT).resp = okResp ∧
      findRoomByCode dbA "ROOM1"
        = some { id := "r1", code := "ROOM1", status := "lobby", ends_at := none } ∧
      findRoomByCode (endPOST { sessionToken := some "s1", code := some "ROOM1" } dbA envT).db
          "ROOM1"
        = some { id := "r1", code := "ROOM1", status := "ended",
                 ends_at := some "2024-06-01T10:00:00.000Z" } := by
  decide

/-- C3 amended: for the owner, end succeeds from any room status — the
handler performs no status check — and always sets `status = "ended"` and
`ends_at = now`, also when the room was in `lobby` or already `ended`
(repeated calls converge on `ended` but refresh `ends_at`). -/
theorem end_always_transitions
    (req : EndReq) (db : DB) (env : Env)
    (tok : String) (session : SessionRow) (player : PlayerRow) (room : RoomRow)
    (htok : req.sessionToken = some tok)
    (hcode : validateRoomCode req.code = true)
    (hsess : findSession db tok = some session)
    (hplayer : findPlayer db session.player_id = some player)
    (hroom : findRoomByCode db (req.code.getD "") = some room)
    (hown : room.id = player.room_id)
    (hrole : ((findMember db room.id player.id).map (fun m => m.role)).getD "" = "owner") :
    (endPOST req db env).resp = okResp ∧
      (endPOST req db env).endedAt = some env.nowIso ∧
      (endPOST req db env).db = { db with rooms := endRoom db.rooms room.id env.nowIso } := by
  rw [hown] at hrole
  simp only [endPOST, htok, hcode, hsess, hplayer, hroom, hown, hrole]
  simp

/-- Witness for the amended C3: the fixture room is in `lobby`, and the
owner's end call succeeds and rewrites it to `ended` with `ends_at = now`. -/
theorem end_always_transitions_witness :
    (endPOST { sessionToken := some "s1", code := some "ROOM1" } dbA envT).resp = okResp ∧
      (endPOST { sessionToken := some "s1", code := some "ROOM1" } dbA envT).endedAt
        = some envT.nowIso ∧
      (endPOST { sessionToken := some "s1", code := some "ROOM1" } dbA envT).db
        = { dbA with rooms := endRoom dbA.rooms "r1" envT.nowIso } :=
  end_always_transitions _ dbA envT "s1" { session_token := "s1", player_id := "p1" }
    { id := "p1", room_id := "r1" }
    { id := "r1", code := "ROOM1", status := "lobby", ends_at := none }
    rfl (by decide) (by decide) (by decide) (by decide) (by decide) (by decide)

/-! ### C4 -/

/-- C4: every successful upload-reserve hands the storage interface exactly
the path `{player_id}/{block_start as ISO-8601}/{player_challenge_id}{ext
from mime}`, where the player id comes from the resolved session row, the
block start and challenge id from the challenge row, and the extension from
`extFromMime`; the reserve request carries no path field, and the trace
contains no storage call other than the signed-upload request for that
path (with overwrite enabled). -/
theorem reserve_path_server_derived
    (req : ReserveReq) (db : DB) (env : Env)
    (tok : String) (session : SessionRow) (pc : PlayerChallengeRow)
    (htok : req.sessionToken = some tok)
    (huuid : validateUuid req.playerChallengeId = true)
    (hmime : badMime (req.mime.getD "") = false)
    (hsess : findSession db tok = some session)
    (hpc : findChallenge db (jsTrim (req.playerChallengeId.getD "")) = some pc)
    (hown : pc.player_id = session.player_id) :
    (reservePOST req db env).resp = okResp ∧
      (reservePOST req db env).upload
        = some { path := session.player_id ++ "/" ++ env.toIso pc.block_start ++ "/"
                           ++ pc.id ++ extFromMime (req.mime.getD ""),
                 token := env.signedToken (session.player_id ++ "/" ++ env.toIso pc.block_start
                           ++ "/" ++ pc.id ++ extFromMime (req.mime.getD "")),
                 signedUrl := env.signedUrlOf (session.player_id ++ "/" ++ env.toIso pc.block_start
                           ++ "/" ++ pc.id ++ extFromMime (req.mime.getD "")) } ∧
      (reservePOST req db env).trace
        = [Effect.sessionLookup tok,
           Effect.challengeLookup (jsTrim (req.playerChallengeId.getD "")),
           Effect.storageSignedUpload (session.player_id ++ "/" ++ env.toIso pc.block_start
             ++ "/" ++ pc.id ++ extFromMime (req.mime.getD "")) true] := by
  simp only [reservePOST, htok, huuid, hmime, hsess, hpc, hown, Bool.not_true, Bool.not_false]
  simp [reservePath]

/-- Witness for C4: reserving challenge `uuidA` as `p1` with `image/png`
produces the path `p1/2024-06-01T09:00:00.000Z/{uuidA}.png`. -/
theorem reserve_path_server_derived_witness :
    (reservePOST { sessionToken := some "s1", playerChallengeId := some uuidA,
                   mime := some "image/png" } dbA envT).resp = okResp ∧
      (reservePOST { sessionToken := some "s1", playerChallengeId := some uuidA,
                     mime := some "image/png" } dbA envT).upload
        = some { path := "p1" ++ "/" ++ envT.toIso pcA.block_start ++ "/"
                           ++ pcA.id ++ extFromMime "image/png",
                 token := envT.signedToken ("p1" ++ "/" ++ envT.toIso pcA.block_start ++ "/"
                           ++ pcA.id ++ extFromMime "image/png"),
                 signedUrl := envT.signedUrlOf ("p1" ++ "/" ++ envT.toIso pcA.block_start ++ "/"
                           ++ pcA.id ++ extFromMime "image/png") } ∧
      (reservePOST { sessionToken := some "s1", playerChallengeId := some uuidA,
                     mime := some "image/png" } dbA envT).trace
        = [Effect.sessionLookup "s1", Effect.challengeLookup (jsTrim uuidA),
           Effect.storageSignedUpload ("p1" ++ "/" ++ envT.toIso pcA.block_start ++ "/"
             ++ pcA.id ++ extFromMime "image/png") true] :=
  reserve_path_server_derived _ dbA envT "s1" { session_token := "s1", player_id := "p1" } pcA
    rfl (by decide) (by decide) (by decide) (by decide) (by decide)

/-! ### C5 -/

/-- C5: on every successful upload-commit, the recorded media family is
`"video"` exactly when the mime starts with `video/` and `"image"`
otherwise, and the commit overwrites `media_url`, `media_type`,
`media_mime` and `media_uploaded_at` in place on the matching challenge
row — the table keeps the same number of rows, so a prior submission is
replaced, not appended to. -/
theorem commit_media_classification_and_overwrite
    (req : CommitReq) (db : DB) (env : Env)
    (tok : String) (session : SessionRow) (pc : PlayerChallengeRow)
    (htok : req.sessionToken = some tok)
    (huuid : validateUuid req.playerChallengeId = true)
    (hpath : (req.path.getD "" == "") = false)
    (hmime : badMime (req.mime.getD "") = false)
    (hsess : findSession db tok = some session)
    (hpc : findChallenge db (jsTrim (req.playerChallengeId.getD "")) = some pc)
    (hown : pc.player_id = session.player_id)
    (hpref : jsStartsWith (req.path.getD "") (session.player_id ++ "/") = true) :
    (commitPOST req db env).resp = okResp ∧
      (commitPOST req db env).media
        = some { url := env.publicUrl (req.path.getD ""), mime := req.mime.getD "",
                 type := mediaTypeFromMime (req.mime.getD "") } ∧
      (mediaTypeFromMime (req.mime.getD "") = "video"
        ↔ jsStartsWith (req.mime.getD "") "video/" = true) ∧
      (mediaTypeFromMime (req.mime.getD "") = "image"
        ↔ jsStartsWith (req.mime.getD "") "video/" = false) ∧
      (commitPOST req db env).db.challenges
        = overwriteMedia db.challenges pc.id (env.publicUrl (req.path.getD ""))
            (mediaTypeFromMime (req.mime.getD "")) (req.mime.getD "") env.nowIso ∧
      (commitPOST req db env).db.challenges.length = db.challenges.length := by
  refine ⟨?_, ?_, ?_, ?_, ?_, ?_⟩
  · simp only [commitPOST, htok, huuid, hpath, hmime, hsess, hpc, hown, hpref,
      Bool.not_true, Bool.not_false]
    simp
  · simp only [commitPOST, htok, huuid, hpath, hmime, hsess, hpc, hown, hpref,
      Bool.not_true, Bool.not_false]
    simp
  · cases h : jsStartsWith (req.mime.getD "") "video/" <;> simp [mediaTypeFromMime, h]
  · cases h : jsStartsWith (req.mime.getD "") "video/" <;> simp [mediaTypeFromMime, h]
  · simp only [commitPOST, htok, huuid, hpath, hmime, hsess, hpc, hown, hpref,
      Bool.not_true, Bool.not_false]
    simp
  · simp only [commitPOST, htok, huuid, hpath, hmime, hsess, hpc, hown, hpref,
      Bool.not_true, Bool.not_false]
    simp [overwriteMedia]

/-- Witness for C5: committing `video/mp4` on the owned challenge records
`media_type = "video"` and overwrites the row's media fields. -/
theorem commit_media_classification_and_overwrite_witness :
    (commitPOST { sessionToken := some "s1", playerChallengeId := some uuidA,
                  path := some "p1/clip.mp4", mime := some "video/mp4" } dbA envT).resp
        = okResp ∧
      (commitPOST { sessionToken := some "s1", playerChallengeId := some uuidA,
                    path := some "p1/clip.mp4", mime := some "video/mp4" } dbA envT).media
        = some { url := envT.publicUrl "p1/clip.mp4", mime := "video/mp4",
                 type := mediaTypeFromMime "video/mp4" } ∧
      (mediaTypeFromMime "video/mp4" = "video" ↔ jsStartsWith "video/mp4" "video/" = true) ∧
      (mediaTypeFromMime "video/mp4" = "image" ↔ jsStartsWith "video/mp4" "video/" = false) ∧
      (commitPOST { sessionToken := some "s1", playerChallengeId := some uuidA,
                    path := some "p1/clip.mp4", mime := some "video/mp4" } dbA envT).db.challenges
        = overwriteMedia dbA.challenges pcA.id (envT.publicUrl "p1/clip.mp4")
            (mediaTypeFromMime "video/mp4") "video/mp4" envT.nowIso ∧
      (commitPOST { sessionToken := some "s1", playerChallengeId := some uuidA,
                    path := some "p1/clip.mp4",
                    mime := some "video/mp4" } dbA envT).db.challenges.length
        = dbA.challenges.length :=
  commit_media_classification_and_overwrite _ dbA envT "s1"
    { session_token := "s1", player_id := "p1" } pcA
    rfl (by decide) (by decide) (by decide) (by decide) (by decide) (by decide) (by decide)

/-! ### C6 -/

/-- C6 counterexample: a request whose token is absent from the session
store is not always answered `UNAUTHORIZED`: with a malformed body, the
commit route answers `INVALID_PLAYER_CHALLENGE_ID` (400), because body
validation runs before the session lookup. -/
theorem unknown_token_validation_counterexample :
    findSession dbA "zzz" = none ∧
      (commitPOST { sessionToken := some "zzz", playerChallengeId := some "bad",
                    path := some "p1/x.png", mime := some "image/png" } dbA envT).resp
        = errResp 400 "INVALID_PLAYER_CHALLENGE_ID" ∧
      errResp 400 "INVALID_PLAYER_CHALLENGE_ID" ≠ errResp 401 "UNAUTHORIZED" := by
  decide

/-- C6 amended: a request carrying no session token is answered
`UNAUTHORIZED` (401) by all three protected operations regardless of body
contents, because the token-presence check precedes body parsing; a token
that misses the session store is answered the identical `UNAUTHORIZED`
(401) provided the body passes the route's validation (with a malformed
body, the `INVALID_*` validation error is returned before the session
lookup).  Token absence and store miss are never distinguished. -/
theorem unauthorized_handling_amended :
    (∀ (req : CommitReq) (db : DB) (env : Env), req.sessionToken = none →
        (commitPOST req db env).resp = errResp 401 "UNAUTHORIZED") ∧
    (∀ (req : ReserveReq) (db : DB) (env : Env), req.sessionToken = none →
        (reservePOST req db env).resp = errResp 401 "UNAUTHORIZED") ∧
    (∀ (req : EndReq) (db : DB) (env : Env), req.sessionToken = none →
        (endPOST req db env).resp = errResp 401 "UNAUTHORIZED") ∧
    (∀ (req : CommitReq) (db : DB) (env : Env) (tok : String),
        req.sessionToken = some tok → validateUuid req.playerChallengeId = true →
        (req.path.getD "" == "") = false → badMime (req.mime.getD "") = false →
        findSession db tok = none →
        (commitPOST req db env).resp = errResp 401 "UNAUTHORIZED") ∧
    (∀ (req : ReserveReq) (db : DB) (env : Env) (tok : String),
        req.sessionToken = some tok → validateUuid req.playerChallengeId = true →
        badMime (req.mime.getD "") = false → findSession db tok = none →
        (reservePOST req db env).resp = errResp 401 "UNAUTHORIZED") ∧
    (∀ (req : EndReq) (db : DB) (env : Env) (tok : String),
        req.sessionToken = some tok → validateRoomCode req.code = true →
        findSession db tok = none →
        (endPOST req db env).resp = errResp 401 "UNAUTHORIZED") := by
  refine ⟨?_, ?_, ?_, ?_, ?_, ?_⟩
  · intro req db env h
    simp [commitPOST, h]
  · intro req db env h
    simp [reservePOST, h]
  · intro req db env h
    simp [endPOST, h]
  · intro req db env tok htok huuid hpath hmime hsess
    simp only [commitPOST, htok, huuid, hpath, hmime, hsess, Bool.not_true, Bool.not_false]
    simp
  · intro req db env tok htok huuid hmime hsess
    simp only [reservePOST, htok, huuid, hmime, hsess, Bool.not_true, Bool.not_false]
    simp
  · intro req db env tok htok hcode hsess
    simp only [endPOST, htok, hcode, hsess, Bool.not_true, Bool.not_false]
    simp

/-- Witness for the amended C6: all six cases instantiated — the three
routes with no token, and the three routes with the unknown token `zzz`
over a well-formed body. -/
theorem unauthorized_handling_amended_witness :
    (commitPOST { sessionToken := none, playerChallengeId := some uuidA,
                  path := some "p1/x.png", mime := some "image/png" } dbA envT).resp
        = errResp 401 "UNAUTHORIZED" ∧
      (reservePOST { sessionToken := none, playerChallengeId := some uuidA,
                     mime := some "image/png" } dbA envT).resp
        = errResp 401 "UNAUTHORIZED" ∧
      (endPOST { sessionToken := none, code := some "ROOM1" } dbA envT).resp
        = errResp 401 "UNAUTHORIZED" ∧
      (commitPOST { sessionToken := some "zzz", playerChallengeId := some uuidA,
                    path := some "p1/x.png", mime := some "image/png" } dbA envT).resp
        = errResp 401 "UNAUTHORIZED" ∧
      (reservePOST { sessionToken := some "zzz", playerChallengeId := some uuidA,
                     mime := some "image/png" } dbA envT).resp
        = errResp 401 "UNAUTHORIZED" ∧
      (endPOST { sessionToken := some "zzz", code := some "ROOM1" } dbA envT).resp
        = errResp 401 "UNAUTHORIZED" :=
  ⟨unauthorized_handling_amended.1 _ dbA envT rfl,
   unauthorized_handling_amended.2.1 _ dbA envT rfl,
   unauthorized_handling_amended.2.2.1 _ dbA envT rfl,
   unauthorized_handling_amended.2.2.2.1 _ dbA envT "zzz" rfl (by decide) (by decide)
     (by decide) (by decide),
   unauthorized_handling_amended.2.2.2.2.1 _ dbA envT "zzz" rfl (by decide) (by decide)
     (by decide),
   unauthorized_handling_amended.2.2.2.2.2 _ dbA envT "zzz" rfl (by decide) (by decide)⟩

/-! ### C7 -/

/-- C7: the end operation is owner-only by membership lookup.  For every
authenticated caller resolved to a player and a room matching the supplied
code, if the membership-role lookup for that player in that room is not
exactly `"owner"`, the handler answers `NOT_ALLOWED` and leaves the
database unchanged; conversely a successful response implies the looked-up
membership role was exactly `"owner"`.  The role is read from the
membership table only — the request carries nothing but the room code. -/
theorem end_owner_only
    (req : EndReq) (db : DB) (env : Env)
    (tok : String) (session : SessionRow) (player : PlayerRow) (room : RoomRow)
    (htok : req.sessionToken = some tok)
    (hcode : validateRoomCode req.code = true)
    (hsess : findSession db tok = some session)
    (hplayer : findPlayer db session.player_id = some player)
    (hroom : findRoomByCode db (req.code.getD "") = some room) :
    (((findMember db room.id player.id).map (fun m => m.role)).getD "" ≠ "owner" →
        (endPOST req db env).resp = errResp 403 "NOT_ALLOWED" ∧
          (endPOST req db env).db = db) ∧
      ((endPOST req db env).resp.ok = true →
        ((findMember db room.id player.id).map (fun m => m.role)).getD "" = "owner") := by
  have ha : ((findMember db room.id player.id).map (fun m => m.role)).getD "" ≠ "owner" →
      (endPOST req db env).resp = errResp 403 "NOT_ALLOWED" ∧ (endPOST req db env).db = db := by
    intro hrole
    by_cases hr : room.id = player.room_id
    · rw [hr] at hrole
      simp only [endPOST, htok, hcode, hsess, hplayer, hroom, hr]
      simp [hrole]
    · simp only [endPOST, htok, hcode, hsess, hplayer, hroom]
      simp [hr]
  refine ⟨ha, ?_⟩
  intro hok
  by_contra hne
  have h := (ha hne).1
  rw [h] at hok
  simp [errResp] at hok

/-- Witness for C7: player `p2` is a `member`, not the owner, of room `r2`,
so their end call on `ROOM2` is rejected and the database kept. -/
theorem end_owner_only_witness :
    (endPOST { sessionToken := some "s2", code := some "ROOM2" } dbA envT).resp
        = errResp 403 "NOT_ALLOWED" ∧
      (endPOST { sessionToken := some "s2", code := some "ROOM2" } dbA envT).db = dbA :=
  (end_owner_only _ dbA envT "s2" { session_token := "s2", player_id := "p2" }
      { id := "p2", room_id := "r2" }
      { id := "r2", code := "ROOM2", status := "active", ends_at := some "2024-06-01T12:00:00.000Z" }
      rfl (by decide) (by decide) (by decide) (by decide)).1 (by decide)

/-! ### C8 -/

/-- C8: in both upload routes, a mime that declares neither the image nor
the video family (or is empty) is rejected with `INVALID_MIME` (400) with an
empty effect trace — before any session lookup, challenge lookup or storage
call — and the database untouched.  (In the commit route the path-presence
check precedes the mime check, so a nonempty path is assumed there.) -/
theorem invalid_mime_rejected_before_lookups
    (rreq : ReserveReq) (creq : CommitReq) (db db2 : DB) (env env2 : Env)
    (tok tok2 : String)
    (hrtok : rreq.sessionToken = some tok)
    (hruuid : validateUuid rreq.playerChallengeId = true)
    (hrmime : badMime (rreq.mime.getD "") = true)
    (hctok : creq.sessionToken = some tok2)
    (hcuuid : validateUuid creq.playerChallengeId = true)
    (hcpath : (creq.path.getD "" == "") = false)
    (hcmime : badMime (creq.mime.getD "") = true) :
    (reservePOST rreq db env).resp = errResp 400 "INVALID_MIME" ∧
      (reservePOST rreq db env).trace = [] ∧
      (reservePOST rreq db env).db = db ∧
      (commitPOST creq db2 env2).resp = errResp 400 "INVALID_MIME" ∧
      (commitPOST creq db2 env2).trace = [] ∧
      (commitPOST creq db2 env2).db = db2 := by
  refine ⟨?_, ?_, ?_, ?_, ?_, ?_⟩ <;>
    simp only [reservePOST, commitPOST, hrtok, hruuid, hrmime, hctok, hcuuid, hcpath, hcmime,
      Bool.not_true, Bool.not_false] <;>
    simp

/-- Witness for C8: `application/pdf` is rejected by both routes with
`INVALID_MIME` and an empty trace. -/
theorem invalid_mime_rejected_before_lookups_witness :
    (reservePOST { sessionToken := some "s1", playerChallengeId := some uuidA,
                   mime := some "application/pdf" } dbA envT).resp
        = errResp 400 "INVALID_MIME" ∧
      (reservePOST { sessionToken := some "s1", playerChallengeId := some uuidA,
                     mime := some "application/pdf" } dbA envT).trace = [] ∧
      (reservePOST { sessionToken := some "s1", playerChallengeId := some uuidA,
                     mime := some "application/pdf" } dbA envT).db = dbA ∧
      (commitPOST { sessionToken := some "s1", playerChallengeId := some uuidA,
                    path := some "p1/x.pdf", mime := some "application/pdf" } dbA envT).resp
        = errResp 400 "INVALID_MIME" ∧
      (commitPOST { sessionToken := some "s1", playerChallengeId := some uuidA,
                    path := some "p1/x.pdf", mime := some "application/pdf" } dbA envT).trace
        = [] ∧
      (commitPOST { sessionToken := some "s1", playerChallengeId := some uuidA,
                    path := some "p1/x.pdf", mime := some "application/pdf" } dbA envT).db
        = dbA :=
  invalid_mime_rejected_before_lookups _ _ dbA dbA envT envT "s1" "s1"
    rfl (by decide) (by decide) rfl (by decide) (by decide) (by decide)

/-! ### C9 -/

/-- C9: in the commit route, once the caller owns the challenge and the mime
is image/video, any nonempty path beginning with `{player_id}/` is accepted
— the hypotheses constrain the path in no other way, so the suffix is never
compared with the reserve-derived shape — and the recorded media URL is the
public URL resolved from the supplied path as-is. -/
theorem commit_path_suffix_unvalidated
    (req : CommitReq) (db : DB) (env : Env)
    (tok : String) (session : SessionRow) (pc : PlayerChallengeRow)
    (htok : req.sessionToken = some tok)
    (huuid : validateUuid req.playerChallengeId = true)
    (hpath : (req.path.getD "" == "") = false)
    (hmime : badMime (req.mime.getD "") = false)
    (hsess : findSession db tok = some session)
    (hpc : findChallenge db (jsTrim (req.playerChallengeId.getD "")) = some pc)
    (hown : pc.player_id = session.player_id)
    (hpref : jsStartsWith (req.path.getD "") (session.player_id ++ "/") = true) :
    (commitPOST req db env).resp = okResp ∧
      (commitPOST req db env).db.challenges
        = overwriteMedia db.challenges pc.id (env.publicUrl (req.path.getD ""))
            (mediaTypeFromMime (req.mime.getD "")) (req.mime.getD "") env.nowIso := by
  simp only [commitPOST, htok, huuid, hpath, hmime, hsess, hpc, hown, hpref,
    Bool.not_true, Bool.not_false]
  simp

/-- Witness for C9: a path bearing no resemblance to the reserve-derived
shape — wrong block segment, wrong id, wrong extension — is accepted as long
as it starts with `p1/`, and its public URL is recorded. -/
theorem commit_path_suffix_unvalidated_witness :
    (commitPOST { sessionToken := some "s1", playerChallengeId := some uuidA,
                  path := some "p1/totally wrong shape!!.weird",
                  mime := some "image/png" } dbA envT).resp = okResp ∧
      (commitPOST { sessionToken := some "s1", playerChallengeId := some uuidA,
                    path := some "p1/totally wrong shape!!.weird",
                    mime := some "image/png" } dbA envT).db.challenges
        = overwriteMedia dbA.challenges pcA.id
            (envT.publicUrl "p1/totally wrong shape!!.weird")
            (mediaTypeFromMime "image/png") "image/png" envT.nowIso :=
  commit_path_suffix_unvalidated _ dbA envT "s1"
    { session_token := "s1", player_id := "p1" } pcA
    rfl (by decide) (by decide) (by decide) (by decide) (by decide) (by decide) (by decide)

/-! ### C10 -/

/-- C10: every successful reserve requests its upload credential with
overwrite enabled (`upsert: true`), and the storage path depends only on the
resolved player, the challenge row and the mime-derived extension: two
successful reserves for the same challenge by the same player whose mimes
yield the same extension target the identical path. -/
theorem reserve_upsert_deterministic
    (req1 req2 : ReserveReq) (db : DB) (env : Env)
    (tok1 tok2 : String) (s1 s2 : SessionRow) (pc : PlayerChallengeRow)
    (htok1 : req1.sessionToken = some tok1)
    (htok2 : req2.sessionToken = some tok2)
    (huuid1 : validateUuid req1.playerChallengeId = true)
    (huuid2 : validateUuid req2.playerChallengeId = true)
    (hmime1 : badMime (req1.mime.getD "") = false)
    (hmime2 : badMime (req2.mime.getD "") = false)
    (hsess1 : findSession db tok1 = some s1)
    (hsess2 : findSession db tok2 = some s2)
    (hpc1 : findChallenge db (jsTrim (req1.playerChallengeId.getD "")) = some pc)
    (hpc2 : findChallenge db (jsTrim (req2.playerChallengeId.getD "")) = some pc)
    (hown1 : pc.player_id = s1.player_id)
    (hown2 : pc.player_id = s2.player_id)
    (hext : extFromMime (req1.mime.getD "") = extFromMime (req2.mime.getD "")) :
    (reservePOST req1 db env).trace
        = [Effect.sessionLookup tok1,
           Effect.challengeLookup (jsTrim (req1.playerChallengeId.getD "")),
           Effect.storageSignedUpload (reservePath env s1 pc (req1.mime.getD "")) true] ∧
      (reservePOST req2 db env).trace
        = [Effect.sessionLookup tok2,
           Effect.challengeLookup (jsTrim (req2.playerChallengeId.getD "")),
           Effect.storageSignedUpload (reservePath env s2 pc (req2.mime.getD "")) true] ∧
      reservePath env s1 pc (req1.mime.getD "") = reservePath env s2 pc (req2.mime.getD "") := by
  refine ⟨?_, ?_, ?_⟩
  · simp only [reservePOST, htok1, huuid1, hmime1, hsess1, hpc1, hown1,
      Bool.not_true, Bool.not_false]
    simp
  · simp only [reservePOST, htok2, huuid2, hmime2, hsess2, hpc2, hown2,
      Bool.not_true, Bool.not_false]
    simp
  · simp only [reservePath, ← hown1, ← hown2, hext]

/-- Witness for C10: two reserves for challenge `uuidA` by player `p1` with
`image/png` both request `upsert: true` for the same path. -/
theorem reserve_upsert_deterministic_witness :
    (reservePOST { sessionToken := some "s1", playerChallengeId := some uuidA,
                   mime := some "image/png" } dbA envT).trace
        = [Effect.sessionLookup "s1", Effect.challengeLookup (jsTrim uuidA),
           Effect.storageSignedUpload
             (reservePath envT { session_token := "s1", player_id := "p1" } pcA "image/png")
             true] ∧
      (reservePOST { sessionToken := some "s1", playerChallengeId := some uuidA,
                     mime := some "image/png" } dbA envT).trace
        = [Effect.sessionLookup "s1", Effect.challengeLookup (jsTrim uuidA),
           Effect.storageSignedUpload
             (reservePath envT { session_token := "s1", player_id := "p1" } pcA "image/png")
             true] ∧
      reservePath envT { session_token := "s1", player_id := "p1" } pcA "image/png"
        = reservePath envT { session_token := "s1", player_id := "p1" } pcA "image/png" :=
  reserve_upsert_deterministic _ _ dbA envT "s1" "s1"
    { session_token := "s1", player_id := "p1" } { session_token := "s1", player_id := "p1" }
    pcA rfl rfl (by decide) (by decide) (by decide) (by decide) (by decide) (by decide)
    (by decide) (by decide) (by decide) (by decide) (by decide)

end Pikudo
